import Mathlib

/-!
Verification of `check_positions_call.py`, a utility script that encodes a
`positionsByUser(address)` call as raw `eth_call` calldata, posts it as a
JSON-RPC request, and reports the response.

Python strings are embedded as `List Char`; the network transport and the
JSON parser are abstracted by a `TransportResult` parameter (the only
interaction of the script with the outside world), and `main` is embedded as a pure
function from its arguments and the transport behaviour to an outcome
(returned exit code plus the optional "Decoded error data" line, or an
uncaught Python exception).
-/

set_option autoImplicit false

namespace CheckPositions

/-- Python strings, embedded as lists of characters. -/
abbrev PyStr := List Char

/-- Build a `PyStr` from a Lean string literal. -/
def pstr (s : String) : PyStr := s.data

/-- Python `str.lower` restricted to ASCII, which is all the script feeds it. -/
def pyLower (c : Char) : Char :=
  if 'A' ≤ c ∧ c ≤ 'Z' then Char.ofNat (c.toNat + 32) else c

/-- The ASCII whitespace characters stripped by Python `str.strip()`. -/
def spaceChars : PyStr := [' ', '\t', '\n', '\r', '\x0b', '\x0c']

/-- Whether `str.strip()` removes the character `c`. -/
def isPySpace (c : Char) : Bool := spaceChars.contains c

/-- Python `str.strip()`: remove leading and trailing whitespace. -/
def pyStrip (s : PyStr) : PyStr :=
  ((s.dropWhile isPySpace).reverse.dropWhile isPySpace).reverse

/-- Python `s.rjust(width, fill)`. -/
def pyRjust (s : PyStr) (width : Nat) (fill : Char) : PyStr :=
  List.replicate (width - s.length) fill ++ s

/-- Python `s.startswith(pre)` (first argument is the pattern). -/
def pyStartswith : PyStr → PyStr → Bool
  | [], _ => true
  | _ :: _, [] => false
  | p :: ps, c :: cs => p == c && pyStartswith ps cs

/-- Python `needle in hay` for strings: substring test. -/
def pyInStr (needle : PyStr) : PyStr → Bool
  | [] => needle.isEmpty
  | c :: cs => pyStartswith needle (c :: cs) || pyInStr needle cs

instance {ε α : Type} [DecidableEq ε] [DecidableEq α] : DecidableEq (Except ε α)
  | .error a, .error b => decidable_of_iff (a = b) (by simp)
  | .error _, .ok _ => isFalse (fun h => Except.noConfusion h)
  | .ok _, .error _ => isFalse (fun h => Except.noConfusion h)
  | .ok a, .ok b => decidable_of_iff (a = b) (by simp)

/-- `POSITIONS_SELECTOR = "0x919ddbf0"` (source line 21). -/
def POSITIONS_SELECTOR : PyStr := pstr "0x919ddbf0"

/-- `DEFAULT_RESOLVER` constant (source line 22). -/
def DEFAULT_RESOLVER : PyStr := pstr "0x394Ce45678e0019c0045194a561E2bEd0FCc6Cf0"

/-- The hex alphabet checked by `build_calldata` (source line 31). -/
def hexDigitsLower : PyStr := pstr "0123456789abcdef"

/-- `build_calldata` (source lines 25-33): lower-case and strip the address,
require the `0x` prefix and a 40-hex-char body, and return the selector
followed by the body right-justified to 64 characters with `'0'`.
`ValueError` is embedded as `Except.error` carrying the message. -/
def build_calldata (address : PyStr) : Except String PyStr :=
  let clean := pyStrip (address.map pyLower)
  if pyStartswith (pstr "0x") clean then
    let clean := clean.drop 2
    if clean.length != 40 || clean.any (fun c => !(hexDigitsLower.contains c)) then
      .error "wallet address must be 40 hex chars (after 0x)"
    else
      .ok (POSITIONS_SELECTOR ++ pyRjust clean 64 '0')
  else
    .error "wallet address must start with 0x"

/-- JSON values, as produced by `json.loads`. -/
inductive Json where
  | null
  | bool (b : Bool)
  | num (n : Int)
  | str (s : PyStr)
  | arr (elems : List Json)
  | obj (fields : List (PyStr × Json))

instance : Inhabited Json := ⟨Json.null⟩

/-- Python exceptions that the script can raise or catch. -/
inductive PyExc where
  | httpError (code : Nat) (reason : String)
  | urlError (reason : String)
  | jsonDecodeError
  | keyError
  | typeError
  | attributeError
deriving DecidableEq

/-- Result of one HTTP round trip attempt, abstracting `urllib` and
`json.loads`: the request raises `HTTPError` or `URLError`, or a body is
received whose parse is `some` JSON value, or `none` when the body is not
valid JSON (`json.loads` raises `JSONDecodeError`). -/
inductive TransportResult where
  | httpError (code : Nat) (reason : String)
  | urlError (reason : String)
  | response (parsed : Option Json)

/-- `post_json` (source lines 36-49) as a function of the transport
behaviour: it propagates transport exceptions and the `JSONDecodeError`
from `json.loads`, and otherwise returns the parsed body. -/
def post_json : TransportResult → Except PyExc Json
  | .httpError code reason => .error (.httpError code reason)
  | .urlError reason => .error (.urlError reason)
  | .response none => .error .jsonDecodeError
  | .response (some j) => .ok j

/-- First-match lookup in the field list of a JSON object (Python `dict` lookup;
`json.loads` never produces duplicate keys). -/
def objLookup (fields : List (PyStr × Json)) (key : PyStr) : Option Json :=
  match fields with
  | [] => none
  | (k, v) :: rest => if k = key then some v else objLookup rest key

/-- Python `key in j` for a JSON value: key membership on dicts, element
equality on lists, substring test on strings, `TypeError` otherwise. -/
def pyContains (key : PyStr) : Json → Except PyExc Bool
  | .obj fields => .ok (objLookup fields key).isSome
  | .arr elems => .ok (elems.any fun x => match x with
      | .str s => s == key
      | _ => false)
  | .str s => .ok (pyInStr key s)
  | _ => .error .typeError

/-- Python `j[key]` for a JSON value: dict lookup (`KeyError` when absent),
`TypeError` on any non-dict. -/
def pyIndex : Json → PyStr → Except PyExc Json
  | .obj fields, key =>
    match objLookup fields key with
    | some v => .ok v
    | none => .error .keyError
  | _, _ => .error .typeError

/-- Python `j.get(key)`: defined on dicts only (`AttributeError` otherwise),
returning `None` for a missing key. -/
def pyGet : Json → PyStr → Except PyExc (Option Json)
  | .obj fields, key => .ok (objLookup fields key)
  | _, _ => .error .attributeError

/-- The response-inspection epilogue of `main` (source lines 114-118):
if `"error" in response`, fetch `response["error"]`, call `.get("data")` on
it, and report the data when it is a string. The returned value is the
payload of the optional "Decoded error data" line. -/
def epilogue (response : Json) : Except PyExc (Option PyStr) := do
  let hasErr ← pyContains (pstr "error") response
  if hasErr then
    let err ← pyIndex response (pstr "error")
    let dataOpt ← pyGet err (pstr "data")
    match dataOpt with
    | some (.str s) => pure (some s)
    | _ => pure none
  else
    pure none

/-- The JSON-RPC request object built by `main` (source lines 84-95). -/
def buildPayload (resolver calldata : PyStr) : Json :=
  .obj [ (pstr "jsonrpc", .str (pstr "2.0")),
         (pstr "id", .num 1),
         (pstr "method", .str (pstr "eth_call")),
         (pstr "params", .arr
           [ .obj [ (pstr "to", .str resolver), (pstr "data", .str calldata) ],
             .str (pstr "latest") ]) ]

/-- The request `main` hands to the transport, when validation succeeds. -/
def sentRequest (wallet resolver : PyStr) : Option Json :=
  match build_calldata wallet with
  | .error _ => none
  | .ok calldata => some (buildPayload resolver calldata)

/-- Outcome of a run of `main`: either the function returns an exit code
(together with the payload of the "Decoded error data" line, when printed),
or an exception propagates out of it uncaught. -/
inductive MainOutcome where
  | returned (code : Nat) (decodedErrorData : Option PyStr)
  | uncaught (exc : PyExc)
deriving DecidableEq

/-- `main` (source lines 52-119), parameterised by the wallet and resolver
arguments and by the transport behaviour (a function from the request
actually sent to the result of the round trip). Validation failure returns 1
before any transport use; `HTTPError` and `URLError` are caught and return
1; other exceptions propagate; a parsed response reaches the epilogue and
the function returns 0. -/
def main (wallet resolver : PyStr) (transport : Json → TransportResult) :
    MainOutcome :=
  match build_calldata wallet with
  | .error _ => .returned 1 none
  | .ok calldata =>
    match post_json (transport (buildPayload resolver calldata)) with
    | .error (PyExc.httpError _ _) => .returned 1 none
    | .error (PyExc.urlError _) => .returned 1 none
    | .error e => .uncaught e
    | .ok response =>
      match epilogue response with
      | .ok line => .returned 0 line
      | .error e => .uncaught e

/-- Extract the `to` field of the first entry of `params` from a request
object (the destination address of the `eth_call`). -/
def requestTo (j : Json) : Option Json :=
  match j with
  | .obj fields =>
    match objLookup fields (pstr "params") with
    | some (.arr (first :: _)) =>
      match first with
      | .obj f2 => objLookup f2 (pstr "to")
      | _ => none
    | _ => none
  | _ => none

/-- The notion of a valid wallet address per the spec: `0x`-prefixed
(case-insensitively) with a body of exactly 40 hex characters in any case. -/
def isValidAddress (a : PyStr) : Bool :=
  let l := a.map pyLower
  pyStartswith (pstr "0x") l
    && (l.drop 2).length == 40
    && (l.drop 2).all (fun c => hexDigitsLower.contains c)

/-- The example wallet used throughout the spec. -/
def sampleWallet : PyStr := pstr "0x0000000000000000000000000000000000000001"

/-- The ASCII uppercase letters. -/
def upperChars : PyStr := pstr "ABCDEFGHIJKLMNOPQRSTUVWXYZ"

/-- The ASCII lowercase letters. -/
def lowerChars : PyStr := pstr "abcdefghijklmnopqrstuvwxyz"

/-- Each uppercase letter paired with its lowercase counterpart. -/
def casePairs : List (Char × Char) := upperChars.zip lowerChars

/-- Two characters differ only in letter case: they are equal, or they are an
uppercase/lowercase pair of the same letter. -/
def caseEquivChar (c d : Char) : Prop :=
  c = d ∨ (c, d) ∈ casePairs ∨ (d, c) ∈ casePairs

instance (c d : Char) : Decidable (caseEquivChar c d) := by
  unfold caseEquivChar
  exact inferInstance

/-! ### Helper lemmas -/

theorem pstr_0x : pstr "0x" = ['0', 'x'] := rfl

theorem selector_length : POSITIONS_SELECTOR.length = 10 := by decide

theorem startswith_0x_shape (l : PyStr) (h : pyStartswith (pstr "0x") l = true) :
    ∃ rest, l = '0' :: 'x' :: rest := by
  rw [pstr_0x] at h
  match l with
  | [] => simp [pyStartswith] at h
  | [c] => simp [pyStartswith] at h
  | c₁ :: c₂ :: rest =>
    simp only [pyStartswith, Bool.and_eq_true, beq_iff_eq] at h
    exact ⟨rest, by rw [h.1, h.2.1]⟩

theorem dropWhile_cons_true {p : Char → Bool} {c : Char} {l : PyStr} (h : p c = true) :
    (c :: l).dropWhile p = l.dropWhile p := by
  simp [List.dropWhile, h]

theorem dropWhile_cons_false {p : Char → Bool} {c : Char} {l : PyStr} (h : p c = false) :
    (c :: l).dropWhile p = c :: l := by
  simp [List.dropWhile, h]

theorem dropWhile_append_all {p : Char → Bool} :
    ∀ (u v : PyStr), (∀ c ∈ u, p c = true) → (u ++ v).dropWhile p = v.dropWhile p
  | [], _, _ => rfl
  | c :: u, v, h => by
    rw [List.cons_append, dropWhile_cons_true (h c (List.mem_cons_self c u))]
    exact dropWhile_append_all u v fun x hx => h x (List.mem_cons_of_mem _ hx)

theorem dropWhile_eq_nil_all {p : Char → Bool} (u : PyStr) (h : ∀ c ∈ u, p c = true) :
    u.dropWhile p = [] := by
  have := dropWhile_append_all (p := p) u [] h
  simpa using this

theorem all_of_dropWhile_eq_nil {p : Char → Bool} :
    ∀ (u : PyStr), u.dropWhile p = [] → ∀ c ∈ u, p c = true
  | [], _, c, hc => absurd hc (List.not_mem_nil c)
  | a :: u, h, c, hc => by
    cases ha : p a with
    | false => rw [dropWhile_cons_false ha] at h; exact absurd h (by simp)
    | true =>
      rw [dropWhile_cons_true ha] at h
      rcases List.mem_cons.mp hc with rfl | hc
      · exact ha
      · exact all_of_dropWhile_eq_nil u h c hc

theorem dropWhile_append_ne_nil {p : Char → Bool} :
    ∀ (l u : PyStr), l.dropWhile p ≠ [] → (l ++ u).dropWhile p = l.dropWhile p ++ u
  | [], _, h => absurd rfl h
  | c :: l, u, h => by
    cases hc : p c with
    | true =>
      have h' : l.dropWhile p ≠ [] := by rwa [dropWhile_cons_true hc] at h
      rw [List.cons_append, dropWhile_cons_true hc, dropWhile_cons_true hc]
      exact dropWhile_append_ne_nil l u h'
    | false =>
      rw [List.cons_append, dropWhile_cons_false hc, dropWhile_cons_false hc,
        List.cons_append]

theorem pyStrip_space_left (w s : PyStr) (hw : ∀ c ∈ w, isPySpace c = true) :
    pyStrip (w ++ s) = pyStrip s := by
  unfold pyStrip
  rw [dropWhile_append_all w s hw]

theorem pyStrip_space_right (s w : PyStr) (hw : ∀ c ∈ w, isPySpace c = true) :
    pyStrip (s ++ w) = pyStrip s := by
  unfold pyStrip
  cases hd : s.dropWhile isPySpace with
  | nil =>
    have hs : ∀ c ∈ s, isPySpace c = true := all_of_dropWhile_eq_nil s hd
    have hall : ∀ c ∈ s ++ w, isPySpace c = true := by
      intro c hc
      rcases List.mem_append.mp hc with h | h
      · exact hs c h
      · exact hw c h
    rw [dropWhile_eq_nil_all _ hall]
  | cons c t =>
    have hne : s.dropWhile isPySpace ≠ [] := by rw [hd]; simp
    rw [dropWhile_append_ne_nil s w hne, hd, List.reverse_append,
      dropWhile_append_all w.reverse (c :: t).reverse
        (fun x hx => hw x (List.mem_reverse.mp hx))]

theorem pyStrip_surround (w1 w2 s : PyStr)
    (h1 : ∀ c ∈ w1, isPySpace c = true) (h2 : ∀ c ∈ w2, isPySpace c = true) :
    pyStrip (w1 ++ s ++ w2) = pyStrip s := by
  rw [List.append_assoc, pyStrip_space_left _ _ h1, pyStrip_space_right _ _ h2]

theorem build_calldata_strip_congr (a b : PyStr)
    (h : pyStrip (a.map pyLower) = pyStrip (b.map pyLower)) :
    build_calldata a = build_calldata b := by
  unfold build_calldata
  rw [h]

theorem hex_mem_not_space : ∀ c ∈ hexDigitsLower, isPySpace c = false := by decide

theorem isValidAddress_spec (a : PyStr) (h : isValidAddress a = true) :
    ∃ body, a.map pyLower = '0' :: 'x' :: body ∧ body.length = 40 ∧
      ∀ c ∈ body, hexDigitsLower.contains c = true := by
  unfold isValidAddress at h
  simp only [Bool.and_eq_true] at h
  obtain ⟨⟨hsw, hlen⟩, hall⟩ := h
  obtain ⟨rest, hrest⟩ := startswith_0x_shape _ hsw
  rw [hrest] at hlen hall
  refine ⟨rest, hrest, by simpa using hlen, ?_⟩
  intro c hc
  exact List.all_eq_true.mp (by simpa using hall) c hc

theorem pyStrip_valid (a : PyStr) (h : isValidAddress a = true) :
    pyStrip (a.map pyLower) = a.map pyLower := by
  obtain ⟨body, hshape, hlen, hhex⟩ := isValidAddress_spec a h
  have hbody_ne : body ≠ [] := by intro hnil; rw [hnil] at hlen; simp at hlen
  have hrev_ne : body.reverse ≠ [] := by simpa [List.reverse_eq_nil_iff] using hbody_ne
  obtain ⟨c, t, hct⟩ := List.exists_cons_of_ne_nil hrev_ne
  have hc_mem : c ∈ body := List.mem_reverse.mp (hct ▸ List.mem_cons_self c t)
  have hc_hex : c ∈ hexDigitsLower := by simpa using hhex c hc_mem
  have hc_space : isPySpace c = false := hex_mem_not_space c hc_hex
  rw [hshape]
  unfold pyStrip
  rw [dropWhile_cons_false (show isPySpace '0' = false by decide)]
  have hrev : ('0' :: 'x' :: body).reverse = c :: (t ++ ['x', '0']) := by
    simp [hct]
  rw [hrev, dropWhile_cons_false hc_space, ← hrev, List.reverse_reverse]

theorem build_calldata_of_valid (a : PyStr) (h : isValidAddress a = true) :
    build_calldata a =
      .ok (POSITIONS_SELECTOR ++ pyRjust ((a.map pyLower).drop 2) 64 '0') := by
  obtain ⟨body, hshape, hlen, hhex⟩ := isValidAddress_spec a h
  have hstrip := pyStrip_valid a h
  unfold build_calldata
  rw [hstrip, hshape]
  have hsw : pyStartswith (pstr "0x") ('0' :: 'x' :: body) = true := by
    rw [pstr_0x]; simp [pyStartswith]
  rw [if_pos hsw]
  have hdrop : ('0' :: 'x' :: body).drop 2 = body := rfl
  have hany : body.any (fun c => !(hexDigitsLower.contains c)) = false := by
    cases hb : body.any (fun c => !(hexDigitsLower.contains c)) with
    | false => rfl
    | true =>
      obtain ⟨x, hx, hpx⟩ := List.any_eq_true.mp hb
      rw [hhex x hx] at hpx
      simp at hpx
  rw [hdrop]
  rw [if_neg (by rw [hlen, hany]; simp)]

theorem casePairs_pyLower : ∀ p ∈ casePairs, pyLower p.1 = pyLower p.2 := by decide

theorem pyLower_eq_of_caseEquivChar (c d : Char) (h : caseEquivChar c d) :
    pyLower c = pyLower d := by
  rcases h with rfl | h | h
  · rfl
  · exact casePairs_pyLower (c, d) h
  · exact (casePairs_pyLower (d, c) h).symm

theorem map_pyLower_congr : ∀ (a b : PyStr), a.length = b.length →
    (∀ p ∈ a.zip b, caseEquivChar p.1 p.2) → a.map pyLower = b.map pyLower
  | [], [], _, _ => rfl
  | [], _ :: _, h, _ => by simp at h
  | _ :: _, [], h, _ => by simp at h
  | c :: a, d :: b, h, hz => by
    simp only [List.map_cons]
    have hcd : caseEquivChar c d :=
      hz (c, d) (by rw [List.zip_cons_cons]; exact List.mem_cons_self _ _)
    rw [pyLower_eq_of_caseEquivChar c d hcd,
      map_pyLower_congr a b (by simpa using h)
        (fun p hp => hz p (by rw [List.zip_cons_cons]; exact List.mem_cons_of_mem _ hp))]

theorem space_pyLower_id : ∀ c ∈ spaceChars, pyLower c = c := by decide

theorem pyLower_space (c : Char) (h : isPySpace c = true) : pyLower c = c := by
  have hmem : c ∈ spaceChars := by simpa [isPySpace] using h
  exact space_pyLower_id c hmem

theorem main_of_error (w r : PyStr) (t : Json → TransportResult) (msg : String)
    (h : build_calldata w = .error msg) : main w r t = .returned 1 none := by
  unfold main
  rw [h]

theorem main_of_http_error (w r cd : PyStr) (t : Json → TransportResult)
    (code : Nat) (reason : String) (hcd : build_calldata w = .ok cd)
    (ht : t (buildPayload r cd) = .httpError code reason) :
    main w r t = .returned 1 none := by
  unfold main
  rw [hcd]
  simp only [ht, post_json]

theorem main_of_url_error (w r cd : PyStr) (t : Json → TransportResult)
    (reason : String) (hcd : build_calldata w = .ok cd)
    (ht : t (buildPayload r cd) = .urlError reason) :
    main w r t = .returned 1 none := by
  unfold main
  rw [hcd]
  simp only [ht, post_json]

theorem main_of_bad_json (w r cd : PyStr) (t : Json → TransportResult)
    (hcd : build_calldata w = .ok cd)
    (ht : t (buildPayload r cd) = .response none) :
    main w r t = .uncaught .jsonDecodeError := by
  unfold main
  rw [hcd]
  simp only [ht, post_json]

theorem main_of_response (w r cd : PyStr) (t : Json → TransportResult) (j : Json)
    (hcd : build_calldata w = .ok cd)
    (ht : t (buildPayload r cd) = .response (some j)) :
    main w r t = (match epilogue j with
                  | .ok line => .returned 0 line
                  | .error e => .uncaught e) := by
  unfold main
  rw [hcd]
  simp only [ht, post_json]

theorem pyExcBind_ok {α β : Type} (a : α) (f : α → Except PyExc β) :
    (Except.ok a >>= f) = f a := rfl

theorem pyExcPure {α : Type} (a : α) : (pure a : Except PyExc α) = .ok a := rfl

theorem epilogue_obj_no_error (fields : List (PyStr × Json))
    (h : objLookup fields (pstr "error") = none) :
    epilogue (.obj fields) = .ok none := by
  simp [epilogue, pyContains, h, pyExcBind_ok, pyExcPure]

theorem epilogue_obj_error_data_str (fields ef : List (PyStr × Json)) (s : PyStr)
    (h : objLookup fields (pstr "error") = some (.obj ef))
    (hd : objLookup ef (pstr "data") = some (.str s)) :
    epilogue (.obj fields) = .ok (some s) := by
  simp [epilogue, pyContains, pyIndex, pyGet, h, hd, pyExcBind_ok, pyExcPure]

theorem epilogue_obj_error_data_not_str (fields ef : List (PyStr × Json))
    (h : objLookup fields (pstr "error") = some (.obj ef))
    (hd : ∀ s, objLookup ef (pstr "data") ≠ some (.str s)) :
    epilogue (.obj fields) = .ok none := by
  cases hX : objLookup ef (pstr "data") with
  | none => simp [epilogue, pyContains, pyIndex, pyGet, h, hX, pyExcBind_ok, pyExcPure]
  | some j =>
    cases j <;>
      first
        | exact absurd hX (hd _)
        | simp [epilogue, pyContains, pyIndex, pyGet, h, hX, pyExcBind_ok, pyExcPure]

theorem epilogue_obj_error_obj_ok (fields ef : List (PyStr × Json))
    (h : objLookup fields (pstr "error") = some (.obj ef)) :
    ∃ line, epilogue (.obj fields) = .ok line := by
  cases hX : objLookup ef (pstr "data") with
  | none =>
    exact ⟨none, epilogue_obj_error_data_not_str fields ef h (by simp [hX])⟩
  | some j =>
    cases j with
    | str s => exact ⟨some s, epilogue_obj_error_data_str fields ef s h hX⟩
    | null => exact ⟨none, epilogue_obj_error_data_not_str fields ef h (by simp [hX])⟩
    | bool b => exact ⟨none, epilogue_obj_error_data_not_str fields ef h (by simp [hX])⟩
    | num n => exact ⟨none, epilogue_obj_error_data_not_str fields ef h (by simp [hX])⟩
    | arr es => exact ⟨none, epilogue_obj_error_data_not_str fields ef h (by simp [hX])⟩
    | obj fs => exact ⟨none, epilogue_obj_error_data_not_str fields ef h (by simp [hX])⟩

/-! ### Claim theorems -/

/-- C1: for every valid wallet address (a `0x`-prefixed string whose body is
exactly 40 hex characters, in any case), `build_calldata` succeeds and returns
the selector `0x919ddbf0` followed by the lower-cased hex body zero-padded on
the left to 64 characters: the result has length 74, starts with the selector,
and its trailing 64 characters are the padded lower-cased body. -/
theorem c1_build_calldata_valid (a : PyStr) (h : isValidAddress a = true) :
    build_calldata a =
        .ok (POSITIONS_SELECTOR ++ pyRjust ((a.map pyLower).drop 2) 64 '0') ∧
      (POSITIONS_SELECTOR ++ pyRjust ((a.map pyLower).drop 2) 64 '0').length = 74 ∧
      (POSITIONS_SELECTOR ++ pyRjust ((a.map pyLower).drop 2) 64 '0').take 10 =
        pstr "0x919ddbf0" ∧
      (POSITIONS_SELECTOR ++ pyRjust ((a.map pyLower).drop 2) 64 '0').drop 10 =
        List.replicate 24 '0' ++ (a.map pyLower).drop 2 := by
  obtain ⟨body, hshape, hlen, -⟩ := isValidAddress_spec a h
  have hbody : (a.map pyLower).drop 2 = body := by rw [hshape]; rfl
  have hrj : pyRjust body 64 '0' = List.replicate 24 '0' ++ body := by
    unfold pyRjust
    rw [hlen]
  refine ⟨build_calldata_of_valid a h, ?_, ?_, ?_⟩
  · rw [hbody, hrj]
    simp [selector_length, hlen]
  · rw [show (10 : Nat) = POSITIONS_SELECTOR.length from selector_length.symm,
      List.take_left]
    rfl
  · rw [show (10 : Nat) = POSITIONS_SELECTOR.length from selector_length.symm,
      List.drop_left, hbody, hrj]

/-- Witness for C1 at the example wallet of the spec: the calldata is the selector
followed by 63 zeros and a final 1, 74 characters in total. -/
theorem c1_build_calldata_valid_witness :
    isValidAddress sampleWallet = true ∧
    build_calldata sampleWallet =
      .ok (pstr "0x919ddbf00000000000000000000000000000000000000000000000000000000000000001") :=
  ⟨by decide, ((c1_build_calldata_valid sampleWallet (by decide)).1).trans (by decide)⟩

/-- C2: `build_calldata` is case-insensitive: on two inputs whose characters
pairwise differ only in letter case, it returns the same result (and, being a
pure function of its argument, it is deterministic and has no side effects). -/
theorem c2_build_calldata_case_insensitive (a b : PyStr) (hlen : a.length = b.length)
    (h : ∀ p ∈ a.zip b, caseEquivChar p.1 p.2) :
    build_calldata a = build_calldata b := by
  apply build_calldata_strip_congr
  rw [map_pyLower_congr a b hlen h]

/-- Witness for C2: an upper-cased and a lower-cased spelling of the same
address encode identically. -/
theorem c2_build_calldata_case_insensitive_witness :
    build_calldata (pstr "0xABCDEF0123456789abcdef0123456789ABCDEF01") =
      build_calldata (pstr "0xabcdef0123456789abcdef0123456789abcdef01") :=
  c2_build_calldata_case_insensitive _ _ (by decide) (by decide)

/-- C3: a wallet whose cleaned form (lower-cased, whitespace-stripped) misses
the `0x` prefix, or has a body of length other than 40, or has a non-hex body
character, makes `build_calldata` raise `ValueError`, and `main` then returns
exit code 1 whatever the transport would do — no network call is attempted. -/
theorem c3_invalid_address_exits_one (w : PyStr)
    (h : pyStartswith (pstr "0x") (pyStrip (w.map pyLower)) = false ∨
         ((pyStrip (w.map pyLower)).drop 2).length ≠ 40 ∨
         ((pyStrip (w.map pyLower)).drop 2).any
           (fun c => !(hexDigitsLower.contains c)) = true) :
    (∃ msg, build_calldata w = .error msg) ∧
    ∀ (r : PyStr) (t : Json → TransportResult), main w r t = .returned 1 none := by
  have herr : ∃ msg, build_calldata w = .error msg := by
    unfold build_calldata
    cases hsw : pyStartswith (pstr "0x") (pyStrip (w.map pyLower)) with
    | false =>
      exact ⟨"wallet address must start with 0x", by rw [if_neg (by simp [hsw])]⟩
    | true =>
      have hcond : (((pyStrip (w.map pyLower)).drop 2).length != 40
          || ((pyStrip (w.map pyLower)).drop 2).any
            (fun c => !(hexDigitsLower.contains c))) = true := by
        rcases h with h | h | h
        · rw [hsw] at h
          simp at h
        · have hb : (((pyStrip (w.map pyLower)).drop 2).length != 40) = true := by
            simpa using h
          rw [hb]
          simp
        · rw [h]
          simp
      exact ⟨"wallet address must be 40 hex chars (after 0x)",
        by rw [if_pos hsw, if_pos hcond]⟩
  obtain ⟨msg, hmsg⟩ := herr
  refine ⟨⟨msg, hmsg⟩, ?_⟩
  intro r t
  unfold main
  rw [hmsg]

/-- Witness for C3: a prefix-less wallet fails validation and `main` returns
exit code 1 against a transport it never consults. -/
theorem c3_invalid_address_exits_one_witness :
    build_calldata (pstr "hello") = .error "wallet address must start with 0x" ∧
    main (pstr "hello") DEFAULT_RESOLVER (fun _ => .response none) =
      .returned 1 none :=
  ⟨by decide,
    (c3_invalid_address_exits_one (pstr "hello") (Or.inl (by decide))).2
      DEFAULT_RESOLVER (fun _ => .response none)⟩

/-- C4 (amended): `main` returns exit code 0 on every completed round trip
whose parsed response is a JSON object in which any top-level `error` field
maps to an object (an RPC-level error is displayed, not treated as failure);
it returns exit code 1 when address validation fails, when the HTTP call
fails (`HTTPError`), or when the network call fails (`URLError`); and it
returns exit code 1 only for those three causes. It does not return 0 on
every completed round trip: a response object whose `error` field holds a
string makes an uncaught `AttributeError` propagate instead. -/
theorem c4_exit_codes (w r : PyStr) (t : Json → TransportResult) :
    ((∃ msg, build_calldata w = .error msg) → main w r t = .returned 1 none) ∧
    (∀ cd, build_calldata w = .ok cd →
      ((∀ code reason, t (buildPayload r cd) = .httpError code reason →
          main w r t = .returned 1 none) ∧
       (∀ reason, t (buildPayload r cd) = .urlError reason →
          main w r t = .returned 1 none) ∧
       (∀ fields, t (buildPayload r cd) = .response (some (.obj fields)) →
          (objLookup fields (pstr "error") = none →
            main w r t = .returned 0 none) ∧
          (∀ ef, objLookup fields (pstr "error") = some (.obj ef) →
            ∃ line, main w r t = .returned 0 line)))) ∧
    (∀ line, main w r t = .returned 1 line →
       (∃ msg, build_calldata w = .error msg) ∨
       (∃ cd, build_calldata w = .ok cd ∧
         ((∃ code reason, t (buildPayload r cd) = .httpError code reason) ∨
          (∃ reason, t (buildPayload r cd) = .urlError reason)))) := by
  refine ⟨?_, ?_, ?_⟩
  · rintro ⟨msg, hmsg⟩
    exact main_of_error w r t msg hmsg
  · intro cd hcd
    refine ⟨fun code reason ht => main_of_http_error w r cd t code reason hcd ht,
            fun reason ht => main_of_url_error w r cd t reason hcd ht, ?_⟩
    intro fields ht
    constructor
    · intro hnone
      rw [main_of_response w r cd t _ hcd ht, epilogue_obj_no_error fields hnone]
    · intro ef hef
      obtain ⟨line, hline⟩ := epilogue_obj_error_obj_ok fields ef hef
      exact ⟨line, by rw [main_of_response w r cd t _ hcd ht, hline]⟩
  · intro line hline
    cases hb : build_calldata w with
    | error msg => exact Or.inl ⟨msg, rfl⟩
    | ok cd =>
      refine Or.inr ⟨cd, rfl, ?_⟩
      cases ht : t (buildPayload r cd) with
      | httpError code reason => exact Or.inl ⟨code, reason, rfl⟩
      | urlError reason => exact Or.inr ⟨reason, rfl⟩
      | response p =>
        cases p with
        | none =>
          rw [main_of_bad_json w r cd t hb ht] at hline
          exact absurd hline (by simp)
        | some j =>
          rw [main_of_response w r cd t j hb ht] at hline
          cases hep : epilogue j with
          | ok l =>
            rw [hep] at hline
            simp at hline
          | error e =>
            rw [hep] at hline
            simp at hline

/-- C4 counterexample: a completed round trip whose response is the JSON
object mapping "error" to the string "boom" makes `main` crash with an uncaught
`AttributeError` (the code calls `.get` on the string) instead of returning
exit code 0, refuting "exit code 0 on every completed round trip". -/
theorem c4_counterexample :
    main sampleWallet DEFAULT_RESOLVER
        (fun _ => .response (some (.obj [(pstr "error", .str (pstr "boom"))]))) =
      .uncaught .attributeError := by decide

/-- Witness for C4 at a completed round trip with an empty-object response:
`main` returns exit code 0. -/
theorem c4_exit_codes_witness :
    main sampleWallet DEFAULT_RESOLVER (fun _ => .response (some (.obj []))) =
      .returned 0 none := by
  have h := ((c4_exit_codes sampleWallet DEFAULT_RESOLVER
      (fun _ => .response (some (.obj [])))).2.1
    (pstr "0x919ddbf00000000000000000000000000000000000000000000000000000000000000001")
    (by decide))
  exact (h.2.2 [] rfl).1 rfl

/-- C5: on a completed round trip whose parsed response is a JSON object,
`main` prints the "Decoded error data" line exactly when the top-level
`error` field is an object whose `data` field is a string, and then the line
carries that string; when `error` is absent, or its `data` field is missing
or not a string, no such line is printed. -/
theorem c5_decoded_error_data (w r cd : PyStr) (t : Json → TransportResult)
    (fields : List (PyStr × Json))
    (hcd : build_calldata w = .ok cd)
    (ht : t (buildPayload r cd) = .response (some (.obj fields))) :
    (∀ ef s, objLookup fields (pstr "error") = some (.obj ef) →
        objLookup ef (pstr "data") = some (.str s) →
        main w r t = .returned 0 (some s)) ∧
    (objLookup fields (pstr "error") = none → main w r t = .returned 0 none) ∧
    (∀ ef, objLookup fields (pstr "error") = some (.obj ef) →
        (∀ s, objLookup ef (pstr "data") ≠ some (.str s)) →
        main w r t = .returned 0 none) := by
  refine ⟨?_, ?_, ?_⟩
  · intro ef s hef hdata
    rw [main_of_response w r cd t _ hcd ht,
      epilogue_obj_error_data_str fields ef s hef hdata]
  · intro hnone
    rw [main_of_response w r cd t _ hcd ht, epilogue_obj_no_error fields hnone]
  · intro ef hef hd
    rw [main_of_response w r cd t _ hcd ht,
      epilogue_obj_error_data_not_str fields ef hef hd]

/-- Witness for C5 at the mocked revert response from the spec: the tool exits 0 and
the decoded-error-data line carries `0xabc123`. -/
theorem c5_decoded_error_data_witness :
    main sampleWallet DEFAULT_RESOLVER
        (fun _ => .response (some (.obj
          [ (pstr "jsonrpc", .str (pstr "2.0")),
            (pstr "id", .num 1),
            (pstr "error", .obj
              [ (pstr "code", .num 3),
                (pstr "message", .str (pstr "execution reverted")),
                (pstr "data", .str (pstr "0xabc123")) ]) ]))) =
      .returned 0 (some (pstr "0xabc123")) := by
  have h := c5_decoded_error_data sampleWallet DEFAULT_RESOLVER
      (pstr "0x919ddbf00000000000000000000000000000000000000000000000000000000000000001")
      (fun _ => .response (some (.obj
          [ (pstr "jsonrpc", .str (pstr "2.0")),
            (pstr "id", .num 1),
            (pstr "error", .obj
              [ (pstr "code", .num 3),
                (pstr "message", .str (pstr "execution reverted")),
                (pstr "data", .str (pstr "0xabc123")) ]) ])))
      [ (pstr "jsonrpc", .str (pstr "2.0")),
        (pstr "id", .num 1),
        (pstr "error", .obj
          [ (pstr "code", .num 3),
            (pstr "message", .str (pstr "execution reverted")),
            (pstr "data", .str (pstr "0xabc123")) ]) ]
      (by decide) rfl
  exact h.1
    [ (pstr "code", .num 3),
      (pstr "message", .str (pstr "execution reverted")),
      (pstr "data", .str (pstr "0xabc123")) ]
    (pstr "0xabc123") rfl rfl

/-- C6: for every wallet accepted by validation and every resolver string,
the JSON-RPC request `main` sends is exactly the object with `jsonrpc` field
"2.0", `id` 1, `method` "eth_call", and `params` the two-element array of
the to/data object and "latest" (a pure value, built once). -/
theorem c6_request_payload (w r cd : PyStr) (h : build_calldata w = .ok cd) :
    sentRequest w r = some (Json.obj
      [ (pstr "jsonrpc", Json.str (pstr "2.0")),
        (pstr "id", Json.num 1),
        (pstr "method", Json.str (pstr "eth_call")),
        (pstr "params", Json.arr
          [ Json.obj [ (pstr "to", Json.str r), (pstr "data", Json.str cd) ],
            Json.str (pstr "latest") ]) ]) := by
  simp [sentRequest, h, buildPayload]

/-- Witness for C6 at the example wallet of the spec and the default resolver. -/
theorem c6_request_payload_witness :
    sentRequest sampleWallet DEFAULT_RESOLVER = some (Json.obj
      [ (pstr "jsonrpc", Json.str (pstr "2.0")),
        (pstr "id", Json.num 1),
        (pstr "method", Json.str (pstr "eth_call")),
        (pstr "params", Json.arr
          [ Json.obj [ (pstr "to", Json.str DEFAULT_RESOLVER),
              (pstr "data", Json.str (pstr "0x919ddbf00000000000000000000000000000000000000000000000000000000000000001")) ],
            Json.str (pstr "latest") ]) ]) :=
  c6_request_payload sampleWallet DEFAULT_RESOLVER _ (by decide)

/-- C7 counterexample: the body of `DEFAULT_RESOLVER` after the `0x` prefix
does not have 42 characters, contrary to the claim. -/
theorem c7_counterexample : ¬ (DEFAULT_RESOLVER.drop 2).length = 42 := by decide

/-- C7 (amended): the default resolver constant is a standard 20-byte
address: its body after the `0x` prefix is exactly 40 hex characters, and it
passes the same shape test the wallet validation uses. -/
theorem c7_resolver_is_standard :
    (DEFAULT_RESOLVER.drop 2).length = 40 ∧
    isValidAddress DEFAULT_RESOLVER = true := ⟨by decide, by decide⟩

/-- C8: when the response body is not valid JSON, `post_json` propagates the
parse error: the resulting exception is `JSONDecodeError`, which is neither
an `HTTPError` nor a `URLError`, so `main` does not catch it and ends
uncaught instead of taking the exit-1 diagnostic path. -/
theorem c8_bad_json_uncaught (w r cd : PyStr) (h : build_calldata w = .ok cd) :
    post_json (.response none) = .error .jsonDecodeError ∧
    (∀ code reason, PyExc.jsonDecodeError ≠ .httpError code reason) ∧
    (∀ reason, PyExc.jsonDecodeError ≠ .urlError reason) ∧
    main w r (fun _ => .response none) = .uncaught .jsonDecodeError := by
  refine ⟨rfl, fun code reason => by simp, fun reason => by simp, ?_⟩
  exact main_of_bad_json w r cd (fun _ => .response none) h rfl

/-- Witness for C8 at the example wallet of the spec. -/
theorem c8_bad_json_uncaught_witness :
    main sampleWallet DEFAULT_RESOLVER (fun _ => .response none) =
      .uncaught .jsonDecodeError :=
  (c8_bad_json_uncaught sampleWallet DEFAULT_RESOLVER
      (pstr "0x919ddbf00000000000000000000000000000000000000000000000000000000000000001")
      (by decide)).2.2.2

/-- C9: `build_calldata` strips surrounding whitespace before validating:
wrapping a valid address in any leading and trailing whitespace gives the
same (successful) result as the address alone. -/
theorem c9_strip_whitespace (w1 w2 a : PyStr)
    (h1 : ∀ c ∈ w1, isPySpace c = true) (h2 : ∀ c ∈ w2, isPySpace c = true)
    (hv : isValidAddress a = true) :
    build_calldata (w1 ++ a ++ w2) = build_calldata a ∧
    build_calldata a =
      .ok (POSITIONS_SELECTOR ++ pyRjust ((a.map pyLower).drop 2) 64 '0') := by
  refine ⟨?_, build_calldata_of_valid a hv⟩
  apply build_calldata_strip_congr
  rw [List.map_append, List.map_append]
  apply pyStrip_surround
  · intro c hc
    obtain ⟨x, hx, rfl⟩ := List.mem_map.mp hc
    rw [pyLower_space x (h1 x hx)]
    exact h1 x hx
  · intro c hc
    obtain ⟨x, hx, rfl⟩ := List.mem_map.mp hc
    rw [pyLower_space x (h2 x hx)]
    exact h2 x hx

/-- Witness for C9: the example wallet surrounded by spaces and a newline
encodes exactly as the bare wallet. -/
theorem c9_strip_whitespace_witness :
    build_calldata ([' '] ++ sampleWallet ++ ['\n', ' ']) =
      build_calldata sampleWallet ∧
    build_calldata sampleWallet =
      .ok (POSITIONS_SELECTOR ++
        pyRjust ((sampleWallet.map pyLower).drop 2) 64 '0') :=
  c9_strip_whitespace [' '] ['\n', ' '] sampleWallet (by decide) (by decide)
    (by decide)

/-- C10: the resolver string is never validated: for every resolver string
`r`, the request is built with `r` placed verbatim as the `to` field, and
`main` behaves the same as with any other resolver (here the empty
string) — only the wallet address can fail validation. -/
theorem c10_resolver_unchecked (w r cd : PyStr) (h : build_calldata w = .ok cd) :
    sentRequest w r = some (buildPayload r cd) ∧
    requestTo (buildPayload r cd) = some (.str r) ∧
    ∀ res : TransportResult, main w r (fun _ => res) = main w (pstr "") (fun _ => res) := by
  refine ⟨by simp [sentRequest, h], rfl, ?_⟩
  intro res
  unfold main
  rw [h]

/-- Witness for C10 with a resolver string that is not an address at all. -/
theorem c10_resolver_unchecked_witness :
    sentRequest sampleWallet (pstr "not-an-address") =
      some (buildPayload (pstr "not-an-address")
        (pstr "0x919ddbf00000000000000000000000000000000000000000000000000000000000000001")) ∧
    requestTo (buildPayload (pstr "not-an-address")
        (pstr "0x919ddbf00000000000000000000000000000000000000000000000000000000000000001")) =
      some (.str (pstr "not-an-address")) ∧
    main sampleWallet (pstr "not-an-address") (fun _ => .response none) =
      main sampleWallet (pstr "") (fun _ => .response none) := by
  have h := c10_resolver_unchecked sampleWallet (pstr "not-an-address")
      (pstr "0x919ddbf00000000000000000000000000000000000000000000000000000000000000001")
      (by decide)
  exact ⟨h.1, h.2.1, h.2.2 (.response none)⟩

end CheckPositions
